import Mathlib

/-!
Verification of the Pentool distributed port-scanner core against its three
engines: the Scan Execution Engine (scanner agent), the Fingerprinting Engine
(analyzer agent, ServiceDetector) and the Aggregation and Report Synthesis
Engine (reporter agent).  Each Go function is shallowly embedded as an
executable Lean definition; network and clock effects are passed in
explicitly as outcome parameters, and message handling is modelled as a
step function over an explicit reporter state.
-/

namespace Pentool

/-! ### Association-list maps

Go `map` values keyed by string or int are embedded as association lists
with the usual lookup, overwrite-insert and delete operations. -/

/-- Lookup in an association list, mirroring a Go map read `m[k]`. -/
def mapLookup {κ β : Type} [DecidableEq κ] (k : κ) : List (κ × β) → Option β
  | [] => none
  | (k1, v) :: rest => if k = k1 then some v else mapLookup k rest

/-- Overwrite-insert, mirroring a Go map write `m[k] = v`. -/
def mapInsert {κ β : Type} [DecidableEq κ] (k : κ) (v : β) : List (κ × β) → List (κ × β)
  | [] => [(k, v)]
  | (k1, v1) :: rest => if k = k1 then (k, v) :: rest else (k1, v1) :: mapInsert k v rest

/-- Key removal, mirroring Go `delete(m, k)`. -/
def mapErase {κ β : Type} [DecidableEq κ] (k : κ) : List (κ × β) → List (κ × β)
  | [] => []
  | (k1, v1) :: rest => if k = k1 then mapErase k rest else (k1, v1) :: mapErase k rest

theorem mapLookup_insert_self {κ β : Type} [DecidableEq κ] (k : κ) (v : β)
    (m : List (κ × β)) : mapLookup k (mapInsert k v m) = some v := by
  induction m with
  | nil => simp [mapInsert, mapLookup]
  | cons p rest ih =>
    obtain ⟨k1, v1⟩ := p
    by_cases h : k = k1 <;> simp [mapInsert, mapLookup, h, ih]

theorem mapLookup_insert_of_ne {κ β : Type} [DecidableEq κ] {k k2 : κ} (h : k2 ≠ k)
    (v : β) (m : List (κ × β)) : mapLookup k2 (mapInsert k v m) = mapLookup k2 m := by
  induction m with
  | nil => simp [mapInsert, mapLookup, h]
  | cons p rest ih =>
    obtain ⟨k1, v1⟩ := p
    by_cases h1 : k = k1
    · subst h1; simp [mapInsert, mapLookup, h]
    · by_cases h2 : k2 = k1 <;> simp [mapInsert, mapLookup, h1, h2, ih]

theorem mapLookup_erase_self {κ β : Type} [DecidableEq κ] (k : κ)
    (m : List (κ × β)) : mapLookup k (mapErase k m) = none := by
  induction m with
  | nil => simp [mapErase, mapLookup]
  | cons p rest ih =>
    obtain ⟨k1, v1⟩ := p
    by_cases h : k = k1
    · subst h; simpa [mapErase] using ih
    · simp [mapErase, mapLookup, h, ih]

theorem mapLookup_erase_of_ne {κ β : Type} [DecidableEq κ] {k k2 : κ} (h : k2 ≠ k)
    (m : List (κ × β)) : mapLookup k2 (mapErase k m) = mapLookup k2 m := by
  induction m with
  | nil => simp [mapErase, mapLookup]
  | cons p rest ih =>
    obtain ⟨k1, v1⟩ := p
    by_cases h1 : k = k1
    · subst h1; simp [mapErase, mapLookup, h, ih]
    · by_cases h2 : k2 = k1 <;> simp [mapErase, mapLookup, h1, h2, ih]

/-! ### Scan Execution Engine (scanner agent)

Embeds the scanner agent: constants `maxWorkers`, `portTimeout` and
`topPorts`, the per-port probe `scanPort`, and the request handler
`handleScanRequest`.  The outcome of a `net.DialTimeout` call is passed in
as an explicit `ConnectOutcome`; the operations performed on an
established connection are returned as a `ConnOp` trace so that the
close-immediately behaviour is visible. -/

namespace Scanner

/-- Outcome of the timed TCP dial `net.DialTimeout("tcp", addr, portTimeout)`:
either it succeeds, or it fails with a timeout error (`netErr.Timeout()`),
or it fails with any other error carrying message `msg`. -/
inductive ConnectOutcome : Type
  | success : ConnectOutcome
  | timeout : ConnectOutcome
  | otherError (msg : String) : ConnectOutcome
deriving DecidableEq, Repr

/-- Operations performed on an established connection after a successful dial. -/
inductive ConnOp : Type
  | close : ConnOp
deriving DecidableEq, Repr

/-- The scanner agent result struct `ScanResult` (fields ID, Target, Port,
IsOpen, Error). -/
structure ScanResult where
  id : String
  target : String
  port : Nat
  isOpen : Bool
  error : String
deriving DecidableEq, Repr

/-- The scanner agent request struct `ScanRequest` (fields ID, Target, Ports). -/
structure ScanRequest where
  id : String
  target : String
  ports : List Nat
deriving DecidableEq, Repr

/-- `maxWorkers = 10`: size of the probe worker pool. -/
def maxWorkers : Nat := 10

/-- `portTimeout = 1 * time.Second`, in seconds: the dial deadline. -/
def portTimeoutSeconds : Nat := 1

/-- `topPorts`: the default port set used when a request carries no ports. -/
def topPorts : List Nat :=
  [21, 22, 23, 25, 80, 110, 443, 445, 3306, 3389, 5432, 6379, 8080, 8443, 27017]

/-- `ScannerAgent.scanPort`: builds a result with IsOpen false, dials with
the 1s deadline, and on error tags it "timeout" for a timeout error and
"connection_refused" otherwise; on success it closes the connection
immediately and sets IsOpen.  Returns the result together with the trace of
operations performed on the established connection. -/
def scanPort (scanID target : String) (port : Nat) (outcome : ConnectOutcome) :
    ScanResult × List ConnOp :=
  match outcome with
  | .timeout =>
      ({ id := scanID, target := target, port := port, isOpen := false,
         error := "timeout" }, [])
  | .otherError _ =>
      ({ id := scanID, target := target, port := port, isOpen := false,
         error := "connection_refused" }, [])
  | .success =>
      ({ id := scanID, target := target, port := port, isOpen := true,
         error := "" }, [ConnOp.close])

/-- `ScannerAgent.handleScanRequest` composed with `scanPorts`: substitutes
`topPorts` when the request has an empty port list and produces one result
per port.  The per-port dial outcomes are supplied by `outcome`; the
completion order of the worker pool is abstracted to port-list order, which
is sound for the counting and coverage properties stated here. -/
def handleScanRequest (req : ScanRequest) (outcome : Nat → ConnectOutcome) :
    List ScanResult :=
  let ports := if req.ports.isEmpty then topPorts else req.ports
  ports.map fun p => (scanPort req.id req.target p (outcome p)).1

/-- State classification of a result in the vocabulary of the specification
data model (spec section 3: state is one of open, closed, filtered; section 7:
timeout maps to filtered, other connection errors map to closed).  This
definition follows the words of the spec and is compared against the code
level `scanPort`. -/
def portStateSpec (r : ScanResult) : String :=
  if r.isOpen then "open" else if r.error = "timeout" then "filtered" else "closed"

theorem scanPort_port (s t : String) (p : Nat) (o : ConnectOutcome) :
    (scanPort s t p o).1.port = p := by
  cases o <;> rfl

end Scanner

/-! ### Worker-pool concurrency model (scanner agent, `scanPorts`)

`ScannerAgent.scanPorts` spawns one goroutine per port; each goroutine
sends into the buffered semaphore channel `sem` (capacity `maxWorkers`)
before dialing and receives from it after the probe completes.  A task is
`waiting` before the semaphore send, `probing` while it holds a slot and
its dial is outstanding, and `done` after the release.  The semaphore send
is enabled exactly when fewer than `maxWorkers` tasks hold slots. -/

namespace Scanner

/-- Status of one probe goroutine in `scanPorts`. -/
inductive TaskStatus : Type
  | waiting : TaskStatus
  | probing : TaskStatus
  | done : TaskStatus
deriving DecidableEq, Repr, BEq

/-- Number of tasks currently holding a semaphore slot with their dial
outstanding. -/
def countProbing (s : List TaskStatus) : Nat :=
  s.countP (fun t => t == TaskStatus.probing)

/-- Initial pool state for a port list of size K: every task is waiting. -/
def initPool (K : Nat) : List TaskStatus := List.replicate K TaskStatus.waiting

/-- Interleaving semantics of the worker pool: a waiting task may acquire a
slot only while fewer than `maxWorkers` tasks are probing (the buffered
channel send blocks otherwise), and a probing task may finish, releasing its
slot. -/
inductive PoolStep : List TaskStatus → List TaskStatus → Prop
  | acquire (l r : List TaskStatus)
      (h : countProbing (l ++ TaskStatus.waiting :: r) < maxWorkers) :
      PoolStep (l ++ TaskStatus.waiting :: r) (l ++ TaskStatus.probing :: r)
  | release (l r : List TaskStatus) :
      PoolStep (l ++ TaskStatus.probing :: r) (l ++ TaskStatus.done :: r)

/-- Reachability of a pool state from the initial state of a K-port scan. -/
def PoolReachable (K : Nat) (s : List TaskStatus) : Prop :=
  Relation.ReflTransGen PoolStep (initPool K) s

theorem countProbing_append (a b : List TaskStatus) :
    countProbing (a ++ b) = countProbing a + countProbing b := by
  simp [countProbing, List.countP_append]

theorem waiting_beq_probing : (TaskStatus.waiting == TaskStatus.probing) = false := rfl

theorem done_beq_probing : (TaskStatus.done == TaskStatus.probing) = false := rfl

theorem probing_beq_probing : (TaskStatus.probing == TaskStatus.probing) = true := rfl

theorem countProbing_initPool (K : Nat) : countProbing (initPool K) = 0 := by
  induction K with
  | zero => rfl
  | succ n ih =>
    simp only [initPool, List.replicate_succ, countProbing, List.countP_cons,
      waiting_beq_probing] at *
    simpa using ih

theorem poolStep_bound {s t : List TaskStatus} (h : PoolStep s t)
    (hs : countProbing s ≤ Scanner.maxWorkers) :
    countProbing t ≤ Scanner.maxWorkers := by
  cases h with
  | acquire l r hlt =>
    have e1 : countProbing (l ++ TaskStatus.probing :: r)
        = countProbing (l ++ TaskStatus.waiting :: r) + 1 := by
      simp [countProbing_append, countProbing, List.countP_cons,
        waiting_beq_probing, probing_beq_probing]
      omega
    omega
  | release l r =>
    have e1 : countProbing (l ++ TaskStatus.done :: r) + 1
        = countProbing (l ++ TaskStatus.probing :: r) := by
      simp [countProbing_append, countProbing, List.countP_cons,
        done_beq_probing, probing_beq_probing]
      omega
    omega

end Scanner

/-! ### Claims about the Scan Execution Engine -/

/-- Claim C2: for every port probed, a successful TCP connect within the
deadline yields a result classified open and the connection is closed
immediately with no further use; a connect timeout yields a result
classified filtered carrying the timeout tag; any other connection error
yields a result classified closed carrying a reason tag
("connection_refused"). -/
theorem c2_scanPort_classification (scanID target : String) (port : Nat) :
    (Scanner.portStateSpec (Scanner.scanPort scanID target port .success).1 = "open"
      ∧ (Scanner.scanPort scanID target port .success).2 = [Scanner.ConnOp.close])
    ∧ (Scanner.portStateSpec (Scanner.scanPort scanID target port .timeout).1 = "filtered"
      ∧ (Scanner.scanPort scanID target port .timeout).1.error = "timeout")
    ∧ (∀ msg : String,
        Scanner.portStateSpec (Scanner.scanPort scanID target port (.otherError msg)).1
          = "closed"
      ∧ (Scanner.scanPort scanID target port (.otherError msg)).1.error
          = "connection_refused") := by
  refine ⟨⟨rfl, rfl⟩, ⟨?_, rfl⟩, fun msg => ⟨?_, rfl⟩⟩
  · simp [Scanner.portStateSpec, Scanner.scanPort]
  · simp [Scanner.portStateSpec, Scanner.scanPort]

/-- Claim C5: with the fixed pool of `maxWorkers` slots, in every state the
worker pool of a K-port scan (K greater than the limit) can reach, at most
`maxWorkers` connection attempts are concurrently outstanding. -/
theorem c5_bounded_concurrency (K : Nat) (s : List Scanner.TaskStatus)
    (_hK : Scanner.maxWorkers < K) (hr : Scanner.PoolReachable K s) :
    Scanner.countProbing s ≤ Scanner.maxWorkers := by
  induction hr with
  | refl => simp [Scanner.countProbing_initPool]
  | tail _ hstep ih => exact Scanner.poolStep_bound hstep ih

/-- Witness for C5 at the concrete pool of the 15-port default scan. -/
theorem c5_bounded_concurrency_witness :
    Scanner.maxWorkers < 15
      ∧ Scanner.countProbing (Scanner.initPool 15) ≤ Scanner.maxWorkers :=
  ⟨by decide,
   c5_bounded_concurrency 15 (Scanner.initPool 15) (by decide) Relation.ReflTransGen.refl⟩

/-- Claim C8: a scan request with an empty port list substitutes the
documented default port set `topPorts` and produces exactly one result per
port of that set (15 results, one per default port, for any dial outcomes). -/
theorem c8_default_ports (req : Scanner.ScanRequest)
    (outcome : Nat → Scanner.ConnectOutcome) (h : req.ports = []) :
    (Scanner.handleScanRequest req outcome).map (fun r => r.port) = Scanner.topPorts
    ∧ (Scanner.handleScanRequest req outcome).length = Scanner.topPorts.length
    ∧ Scanner.topPorts.length = 15 := by
  have hmap : (Scanner.handleScanRequest req outcome).map (fun r => r.port)
      = Scanner.topPorts := by
    simp only [Scanner.handleScanRequest, h, List.isEmpty_nil, if_pos, List.map_map]
    have : ((fun r => Scanner.ScanResult.port r) ∘
        fun p => (Scanner.scanPort req.id req.target p (outcome p)).1)
        = fun p => p := by
      funext p
      simp [Scanner.scanPort_port]
    rw [this]
    simp
  refine ⟨hmap, ?_, rfl⟩
  have := congrArg List.length hmap
  simpa using this

/-- Witness for C8 at a concrete empty-port request. -/
theorem c8_default_ports_witness :
    (Scanner.ScanRequest.mk "scan-1" "host" []).ports = []
    ∧ (Scanner.handleScanRequest (Scanner.ScanRequest.mk "scan-1" "host" [])
        (fun _ => Scanner.ConnectOutcome.timeout)).length = 15 := by
  refine ⟨rfl, ?_⟩
  obtain ⟨h1, h2, h3⟩ := c8_default_ports (Scanner.ScanRequest.mk "scan-1" "host" [])
    (fun _ => Scanner.ConnectOutcome.timeout) rfl
  omega

/-! ### Fingerprinting Engine (analyzer agent, `ServiceDetector`)

Embeds the analyzer agent: the well-known-port table `serviceRegistry`,
the protocol handlers `detectSSH`, `detectHTTP`, `detectHTTPS`,
`detectMySQL`, `detectPostgreSQL`, `detectRedis`, `detectMongoDB`, the
generic `grabBanner`, and the dispatcher `detectService`.  Each handler
opens its own connection with a 2 second deadline; the network behaviour it
observes is passed in as an explicit probe outcome. -/

namespace Analyzer

/-- Go `strings.Contains` for character lists. -/
def containsChars (pat : List Char) : List Char → Bool
  | [] => pat.isEmpty
  | c :: rest => pat.isPrefixOf (c :: rest) || containsChars pat rest

/-- Go `strings.Contains`. -/
def stringContains (s pat : String) : Bool := containsChars pat.toList s.toList

/-- Go `strings.TrimSpace` on characters (the probed banners are ASCII, so
whitespace means space, tab, carriage return and line feed). -/
def trimChars (s : List Char) : List Char :=
  ((s.dropWhile Char.isWhitespace).reverse.dropWhile Char.isWhitespace).reverse

/-- Go `strings.TrimSpace`. -/
def stringTrim (s : String) : String := String.mk (trimChars s.toList)

/-- Splitting a character list at every occurrence of a separator character. -/
def splitOnCharAux (sep : Char) : List Char → List Char → List (List Char)
  | [], acc => [acc.reverse]
  | c :: rest, acc =>
      if c = sep then acc.reverse :: splitOnCharAux sep rest []
      else splitOnCharAux sep rest (c :: acc)

/-- Go `strings.Split` with a one-character separator. -/
def stringSplitChar (s : String) (sep : Char) : List String :=
  (splitOnCharAux sep s.toList []).map String.mk

/-- Go `strings.ReplaceAll` with an empty replacement for a one-character
pattern. -/
def removeChar (c : Char) (s : String) : String :=
  String.mk (s.toList.filter (fun x => !(decide (x = c))))

/-- Go `strings.ReplaceAll` replacing a one-character pattern by a
one-character replacement. -/
def replaceChar (c r : Char) (s : String) : String :=
  String.mk (s.toList.map (fun x => if x = c then r else x))

/-- Go `strings.ToLower` (ASCII inputs). -/
def lowerChars (s : String) : String := String.mk (s.toList.map Char.toLower)

/-- Go `strings.HasPrefix`. -/
def stringStarts (s pat : String) : Bool := pat.toList.isPrefixOf s.toList

/-- Go slicing `s[n:]` on bytes, applied to ASCII text. -/
def stringDrop (s : String) (n : Nat) : String := String.mk (s.toList.drop n)

/-- Go `strings.TrimPrefix`. -/
def trimPre (s pat : String) : String :=
  if stringStarts s pat then stringDrop s pat.length else s

/-- The analyzer agent `ScanResult` struct it unmarshals from the
`scan.result` topic (fields ID, Target, Port, IsOpen, Error). -/
structure ScanResult where
  id : String
  target : String
  port : Nat
  isOpen : Bool
  error : String
deriving DecidableEq, Repr

/-- The analyzer agent `ServiceInfo` struct published on `service.detected`
(fields ScanID, Target, Port, Service, Version, Banner). -/
structure ServiceInfo where
  scanID : String
  target : String
  port : Nat
  service : String
  version : String
  banner : String
deriving DecidableEq, Repr

/-- `serviceRegistry`: the well-known-port to service-name table built in
`NewServiceDetector`. -/
def serviceRegistry : List (Nat × String) :=
  [(21, "FTP"), (22, "SSH"), (23, "Telnet"), (25, "SMTP"), (80, "HTTP"),
   (110, "POP3"), (143, "IMAP"), (443, "HTTPS"), (445, "SMB"), (1433, "MSSQL"),
   (3306, "MySQL"), (3389, "RDP"), (5432, "PostgreSQL"), (5900, "VNC"),
   (6379, "Redis"), (8080, "HTTP-Proxy"), (8443, "HTTPS-Alt"), (27017, "MongoDB")]

/-- Network behaviour observed by `detectSSH`: the dial fails, the banner
read fails with a non-EOF error, or a line is read (possibly ending at EOF). -/
inductive SSHProbe : Type
  | connectFail : SSHProbe
  | readFail : SSHProbe
  | line (banner : String) : SSHProbe
deriving DecidableEq, Repr

def SSHProbe.isFail : SSHProbe → Bool
  | .connectFail => true
  | .readFail => true
  | .line _ => false

/-- `ServiceDetector.detectSSH`: reads the first line; on any I/O failure
returns the record unchanged; otherwise stores the trimmed line as banner,
marks the service SSH when the line mentions SSH, and, when it mentions
OpenSSH and splits on spaces into more than one token, stores the token
after the first space as the version. -/
def detectSSH (info : ServiceInfo) (p : SSHProbe) : ServiceInfo :=
  match p with
  | .connectFail => info
  | .readFail => info
  | .line banner =>
      let info1 := { info with banner := stringTrim banner }
      if stringContains banner "SSH" then
        let info2 := { info1 with service := "SSH" }
        if stringContains banner "OpenSSH" then
          match stringSplitChar banner ' ' with
          | _ :: v :: _ => { info2 with version := v }
          | _ => info2
        else info2
      else info1

/-- Network behaviour observed by `detectHTTP` and `detectHTTPS`: the GET
fails, or a response arrives with protocol, status code, status text and a
Server header value ("" when the header is absent). -/
inductive HTTPProbe : Type
  | fail : HTTPProbe
  | resp (proto : String) (statusCode : Nat) (statusText : String)
      (server : String) : HTTPProbe
deriving DecidableEq, Repr

def HTTPProbe.isFail : HTTPProbe → Bool
  | .fail => true
  | .resp _ _ _ _ => false

/-- `ServiceDetector.detectHTTP`: GET "/" with a 2s client timeout; on
failure returns the record unchanged, otherwise marks the service HTTP and
takes the Server header as version when present. -/
def detectHTTP (info : ServiceInfo) (p : HTTPProbe) : ServiceInfo :=
  match p with
  | .fail => info
  | .resp proto statusCode statusText server =>
      let info1 := { info with service := "HTTP" }
      if server ≠ "" then
        { info1 with
            version := server,
            banner := "HTTP/" ++ proto ++ " " ++ toString statusCode ++ " "
              ++ statusText ++ " - Server: " ++ server }
      else
        { info1 with
            banner := "HTTP/" ++ proto ++ " " ++ toString statusCode
              ++ " " ++ statusText }

/-- `ServiceDetector.detectHTTPS`: like `detectHTTP` but over TLS without
certificate validation, marking the service HTTPS. -/
def detectHTTPS (info : ServiceInfo) (p : HTTPProbe) : ServiceInfo :=
  match p with
  | .fail => info
  | .resp proto statusCode statusText server =>
      let info1 := { info with service := "HTTPS" }
      if server ≠ "" then
        { info1 with
            version := server,
            banner := "HTTPS/" ++ proto ++ " " ++ toString statusCode ++ " "
              ++ statusText ++ " - Server: " ++ server }
      else
        { info1 with
            banner := "HTTPS/" ++ proto ++ " " ++ toString statusCode
              ++ " " ++ statusText }

/-- Network behaviour observed by `detectMySQL`: the dial fails, the
handshake read fails with a non-EOF error, or `data` bytes are read. -/
inductive MySQLProbe : Type
  | connectFail : MySQLProbe
  | readFail : MySQLProbe
  | packet (data : List Nat) : MySQLProbe
deriving DecidableEq, Repr

def MySQLProbe.isFail : MySQLProbe → Bool
  | .connectFail => true
  | .readFail => true
  | .packet _ => false

/-- The version-scan loop of `detectMySQL`: versionEnd starts at 5 and is
set to each index i in [5, n) while buf[i] is nonzero. -/
def mysqlVersionEnd (data : List Nat) (n i ve : Nat) : Nat :=
  if h : i < n ∧ data.getD i 0 ≠ 0 then mysqlVersionEnd data n (i + 1) i else ve
termination_by n - i
decreasing_by
  have := h.1
  omega

/-- Bytes to string, for `string(buf[5:versionEnd])`. -/
def stringOfBytes (bs : List Nat) : String := String.mk (bs.map Char.ofNat)

/-- `ServiceDetector.detectMySQL`: passively reads the handshake packet; on
any I/O failure returns the record unchanged; when more than 4 bytes arrive
and the protocol-version byte buf[4] is 10, marks the service MySQL and
extracts the version text that follows. -/
def detectMySQL (info : ServiceInfo) (p : MySQLProbe) : ServiceInfo :=
  match p with
  | .connectFail => info
  | .readFail => info
  | .packet data =>
      let n := data.length
      if n > 4 then
        if data.getD 4 0 = 10 then
          let info1 := { info with service := "MySQL" }
          let versionEnd := mysqlVersionEnd data n 5 5
          if versionEnd > 5 then
            let v := stringOfBytes ((data.drop 5).take (versionEnd - 5))
            { info1 with version := v, banner := "MySQL " ++ v }
          else info1
        else info
      else info

/-- Network behaviour observed by `detectPostgreSQL`: the dial fails, the
probe write fails, or the read returns n bytes with an optional error text. -/
inductive PGProbe : Type
  | connectFail : PGProbe
  | writeFail : PGProbe
  | readResult (n : Nat) (err : Option String) : PGProbe
deriving DecidableEq, Repr

def PGProbe.isFail : PGProbe → Bool
  | .connectFail => true
  | .writeFail => true
  | .readResult n _ => n = 0

/-- `ServiceDetector.detectPostgreSQL`: sends a fixed cancel-request packet;
when any data comes back, or the read error mentions a connection reset,
marks the service PostgreSQL. -/
def detectPostgreSQL (info : ServiceInfo) (p : PGProbe) : ServiceInfo :=
  match p with
  | .connectFail => info
  | .writeFail => info
  | .readResult n err =>
      if n > 0 || (match err with
                   | some e => stringContains e "connection reset"
                   | none => false) then
        { info with service := "PostgreSQL", banner := "PostgreSQL server" }
      else info

/-- Network behaviour observed by `detectRedis`: the dial fails, the PING
write fails, the reply read fails with a non-EOF error, or a reply line is
read followed by `infoData` from the INFO read ("" when that read returned
no bytes). -/
inductive RedisProbe : Type
  | connectFail : RedisProbe
  | writeFail : RedisProbe
  | readFail : RedisProbe
  | resp (line : String) (infoData : String) : RedisProbe
deriving DecidableEq, Repr

def RedisProbe.isFail : RedisProbe → Bool
  | .connectFail => true
  | .writeFail => true
  | .readFail => true
  | .resp _ _ => false

/-- `ServiceDetector.detectRedis`: sends an inline PING; when the reply
contains PONG or begins with "+", marks the service Redis, then scans the
INFO output for a redis_version line to fill in the version. -/
def detectRedis (info : ServiceInfo) (p : RedisProbe) : ServiceInfo :=
  match p with
  | .connectFail => info
  | .writeFail => info
  | .readFail => info
  | .resp line infoData =>
      if stringContains line "PONG" || stringStarts line "+" then
        let info1 := { info with service := "Redis" }
        let info2 :=
          if infoData ≠ "" && stringContains infoData "redis_version" then
            match (stringSplitChar infoData '\n').find?
                (fun l => stringStarts l "redis_version:") with
            | some l =>
                { info1 with version := stringTrim (trimPre l "redis_version:") }
            | none => info1
          else info1
        if info2.version ≠ "" then { info2 with banner := "Redis " ++ info2.version }
        else { info2 with banner := "Redis server" }
      else info

/-- Network behaviour observed by `detectMongoDB`: the dial fails, the
legacy-wire-protocol write fails, or the read returns n bytes. -/
inductive MongoProbe : Type
  | connectFail : MongoProbe
  | writeFail : MongoProbe
  | readResult (n : Nat) : MongoProbe
deriving DecidableEq, Repr

def MongoProbe.isFail : MongoProbe → Bool
  | .connectFail => true
  | .writeFail => true
  | .readResult n => n = 0

/-- `ServiceDetector.detectMongoDB`: sends a fixed isMaster query; when any
reply bytes arrive, marks the service MongoDB. -/
def detectMongoDB (info : ServiceInfo) (p : MongoProbe) : ServiceInfo :=
  match p with
  | .connectFail => info
  | .writeFail => info
  | .readResult n =>
      if n > 0 then { info with service := "MongoDB", banner := "MongoDB server" }
      else info

/-- Network behaviour observed by `grabBanner`: the dial fails, the first
read yields `data` without triggering the retry ("" when it returned no
bytes benignly), or the first read failed with no data and the retry after
sending a line terminator yielded `data`. -/
inductive BannerProbe : Type
  | connectFail : BannerProbe
  | firstRead (data : String) : BannerProbe
  | retryRead (data : String) : BannerProbe
deriving DecidableEq, Repr

def BannerProbe.isFail : BannerProbe → Bool
  | .connectFail => true
  | .firstRead data => data = ""
  | .retryRead data => data = ""

/-- Banner post-processing and keyword classification of `grabBanner` once
n bytes have been read: trim, strip carriage returns, flatten newlines,
truncate to 200 characters with an ellipsis, then guess the service from
lower-cased keywords, falling back to Unknown only when no well-known name
was already present. -/
def grabBannerProcess (info : ServiceInfo) (data : String) : ServiceInfo :=
  if data.length > 0 then
    let banner0 := replaceChar '\n' ' ' (removeChar '\r' (stringTrim data))
    let banner :=
      if banner0.length > 200 then String.mk (banner0.toList.take 200) ++ "..."
      else banner0
    let info1 := { info with banner := banner }
    let bannerLower := lowerChars banner
    if stringContains bannerLower "ftp" then { info1 with service := "FTP" }
    else if stringContains bannerLower "smtp" then { info1 with service := "SMTP" }
    else if stringContains bannerLower "pop3" then { info1 with service := "POP3" }
    else if stringContains bannerLower "imap" then { info1 with service := "IMAP" }
    else if stringContains bannerLower "http" then { info1 with service := "HTTP" }
    else if stringContains bannerLower "ssh" then { info1 with service := "SSH" }
    else if info1.service = "" then { info1 with service := "Unknown" }
    else info1
  else info

/-- `ServiceDetector.grabBanner`: generic fallback banner grab. -/
def grabBanner (info : ServiceInfo) (p : BannerProbe) : ServiceInfo :=
  match p with
  | .connectFail => info
  | .firstRead data => grabBannerProcess info data
  | .retryRead data => grabBannerProcess info data

/-- One probe environment: what each handler would observe on the wire for
the port being fingerprinted. -/
structure ProbeEnv where
  ssh : SSHProbe
  http : HTTPProbe
  https : HTTPProbe
  mysql : MySQLProbe
  postgres : PGProbe
  redis : RedisProbe
  mongo : MongoProbe
  generic : BannerProbe
deriving DecidableEq, Repr

/-- The Go switch of `ServiceDetector.detectService`: dispatch to the
port-specific handler, defaulting to the generic banner grab. -/
def dispatchService (port : Nat) (info : ServiceInfo) (env : ProbeEnv) : ServiceInfo :=
  if port = 22 then detectSSH info env.ssh
  else if port = 80 ∨ port = 8080 then detectHTTP info env.http
  else if port = 443 ∨ port = 8443 then detectHTTPS info env.https
  else if port = 3306 then detectMySQL info env.mysql
  else if port = 5432 then detectPostgreSQL info env.postgres
  else if port = 6379 then detectRedis info env.redis
  else if port = 27017 then detectMongoDB info env.mongo
  else grabBanner info env.generic

/-- `ServiceDetector.detectService`: builds the record, fills in the
well-known-port default name from `serviceRegistry`, then dispatches to the
port-specific handler. -/
def detectService (result : ScanResult) (env : ProbeEnv) : ServiceInfo :=
  let info0 : ServiceInfo :=
    { scanID := result.id, target := result.target, port := result.port,
      service := "", version := "", banner := "" }
  let info :=
    match mapLookup result.port serviceRegistry with
    | some name => { info0 with service := name }
    | none => info0
  dispatchService result.port info env

/-- Whether the handler that `detectService` dispatches to for this port
observes an I/O failure (failed connect, write, or read). -/
def failsFor (env : ProbeEnv) (port : Nat) : Bool :=
  if port = 22 then env.ssh.isFail
  else if port = 80 ∨ port = 8080 then env.http.isFail
  else if port = 443 ∨ port = 8443 then env.https.isFail
  else if port = 3306 then env.mysql.isFail
  else if port = 5432 then env.postgres.isFail
  else if port = 6379 then env.redis.isFail
  else if port = 27017 then env.mongo.isFail
  else env.generic.isFail

theorem detectSSH_fail (info : ServiceInfo) (p : SSHProbe)
    (h : p.isFail = true) : detectSSH info p = info := by
  cases p <;> simp_all [SSHProbe.isFail, detectSSH]

theorem detectHTTP_fail (info : ServiceInfo) (p : HTTPProbe)
    (h : p.isFail = true) : detectHTTP info p = info := by
  cases p <;> simp_all [HTTPProbe.isFail, detectHTTP]

theorem detectHTTPS_fail (info : ServiceInfo) (p : HTTPProbe)
    (h : p.isFail = true) : detectHTTPS info p = info := by
  cases p <;> simp_all [HTTPProbe.isFail, detectHTTPS]

theorem detectMySQL_fail (info : ServiceInfo) (p : MySQLProbe)
    (h : p.isFail = true) : detectMySQL info p = info := by
  cases p <;> simp_all [MySQLProbe.isFail, detectMySQL]

theorem detectPostgreSQL_fail (info : ServiceInfo) (p : PGProbe)
    (h : p.isFail = true) :
    (detectPostgreSQL info p).service = info.service
    ∨ (detectPostgreSQL info p).service = "PostgreSQL" := by
  cases p with
  | connectFail => left; rfl
  | writeFail => left; rfl
  | readResult n err =>
    simp only [PGProbe.isFail, decide_eq_true_eq] at h
    subst h
    simp only [detectPostgreSQL]
    split
    · right; rfl
    · left; rfl

theorem detectRedis_fail (info : ServiceInfo) (p : RedisProbe)
    (h : p.isFail = true) : detectRedis info p = info := by
  cases p <;> simp_all [RedisProbe.isFail, detectRedis]

theorem detectMongoDB_fail (info : ServiceInfo) (p : MongoProbe)
    (h : p.isFail = true) : detectMongoDB info p = info := by
  cases p with
  | connectFail => rfl
  | writeFail => rfl
  | readResult n =>
    simp only [MongoProbe.isFail, decide_eq_true_eq] at h
    subst h
    simp [detectMongoDB]

theorem grabBanner_fail (info : ServiceInfo) (p : BannerProbe)
    (h : p.isFail = true) : grabBanner info p = info := by
  cases p with
  | connectFail => rfl
  | firstRead data =>
    simp only [BannerProbe.isFail, decide_eq_true_eq] at h
    subst h
    simp [grabBanner, grabBannerProcess]
  | retryRead data =>
    simp only [BannerProbe.isFail, decide_eq_true_eq] at h
    subst h
    simp [grabBanner, grabBannerProcess]

theorem mapLookup_mem {κ β : Type} [DecidableEq κ] {k : κ} {v : β} :
    ∀ {m : List (κ × β)}, mapLookup k m = some v → (k, v) ∈ m := by
  intro m
  induction m with
  | nil => intro h; simp [mapLookup] at h
  | cons p rest ih =>
    obtain ⟨k1, v1⟩ := p
    intro h
    by_cases hk : k = k1
    · subst hk
      simp only [mapLookup, eq_self_iff_true, if_true, ite_true, Option.some.injEq] at h
      subst h
      exact List.mem_cons_self _ _
    · simp only [mapLookup, if_neg hk] at h
      exact List.mem_cons_of_mem _ (ih h)

theorem registry_name_not_unknown (port : Nat) (name : String)
    (h : mapLookup port serviceRegistry = some name) : name ≠ "Unknown" := by
  intro hcon
  subst hcon
  have hm := mapLookup_mem h
  simp [serviceRegistry] at hm

theorem dispatchService_fail (port : Nat) (info : ServiceInfo) (env : ProbeEnv)
    (hfail : failsFor env port = true) :
    (dispatchService port info env).service = info.service
    ∨ ((dispatchService port info env).service = "PostgreSQL" ∧ port = 5432) := by
  unfold dispatchService
  unfold failsFor at hfail
  split_ifs at hfail ⊢ with h1 h2 h3 h4 h5 h6 h7
  · left; rw [detectSSH_fail _ _ hfail]
  · left; rw [detectHTTP_fail _ _ hfail]
  · left; rw [detectHTTPS_fail _ _ hfail]
  · left; rw [detectMySQL_fail _ _ hfail]
  · rcases detectPostgreSQL_fail info env.postgres hfail with h | h
    · left; exact h
    · right; exact ⟨h, h5⟩
  · left; rw [detectRedis_fail _ _ hfail]
  · left; rw [detectMongoDB_fail _ _ hfail]
  · left; rw [grabBanner_fail _ _ hfail]

end Analyzer

/-! ### Claims about the Fingerprinting Engine -/

/-- Claim C9: for every fingerprint probe of a port with an entry in the
well-known-port table, if the handler the detector dispatches to observes an
I/O failure, the emitted record still carries the well-known default service
name, which is never the Unknown downgrade. -/
theorem c9_fingerprint_failure_keeps_default (r : Analyzer.ScanResult)
    (env : Analyzer.ProbeEnv) (name : String)
    (hreg : mapLookup r.port Analyzer.serviceRegistry = some name)
    (hfail : Analyzer.failsFor env r.port = true) :
    (Analyzer.detectService r env).service = name ∧ name ≠ "Unknown" := by
  have hnu : name ≠ "Unknown" := Analyzer.registry_name_not_unknown r.port name hreg
  refine ⟨?_, hnu⟩
  have hds : Analyzer.detectService r env = Analyzer.dispatchService r.port
      { scanID := r.id, target := r.target, port := r.port, service := name,
        version := "", banner := "" } env := by
    simp only [Analyzer.detectService, hreg]
  rw [hds]
  rcases Analyzer.dispatchService_fail r.port
      { scanID := r.id, target := r.target, port := r.port, service := name,
        version := "", banner := "" } env hfail with h | ⟨h, hp⟩
  · simpa using h
  · rw [h]
    rw [hp] at hreg
    have hpg : mapLookup 5432 Analyzer.serviceRegistry = some "PostgreSQL" := rfl
    rw [hpg] at hreg
    injection hreg

/-- A probe environment in which every handler observes a failed connect
(for HTTP, a failed GET). -/
def envAllFail : Analyzer.ProbeEnv :=
  { ssh := Analyzer.SSHProbe.connectFail, http := Analyzer.HTTPProbe.fail,
    https := Analyzer.HTTPProbe.fail, mysql := Analyzer.MySQLProbe.connectFail,
    postgres := Analyzer.PGProbe.connectFail, redis := Analyzer.RedisProbe.connectFail,
    mongo := Analyzer.MongoProbe.connectFail, generic := Analyzer.BannerProbe.connectFail }

/-- Witness for C9: an open port 22 whose SSH handler fails to connect still
yields the well-known default name SSH. -/
theorem c9_fingerprint_failure_keeps_default_witness :
    mapLookup 22 Analyzer.serviceRegistry = some "SSH"
    ∧ Analyzer.failsFor envAllFail 22 = true
    ∧ (Analyzer.detectService
        (Analyzer.ScanResult.mk "scan-1" "host" 22 true "") envAllFail).service = "SSH"
    ∧ "SSH" ≠ "Unknown" := by
  refine ⟨rfl, rfl, ?_⟩
  exact c9_fingerprint_failure_keeps_default
    (Analyzer.ScanResult.mk "scan-1" "host" 22 true "") envAllFail "SSH" rfl rfl

/-- The scan result of the C4 scenario: open port 22. -/
def sshResult22 : Analyzer.ScanResult :=
  { id := "scan-1", target := "host", port := 22, isOpen := true, error := "" }

/-- The probe environment of the C4 scenario: the SSH handler reads the
protocol tag line of the scenario. -/
def envSSHBanner : Analyzer.ProbeEnv :=
  { envAllFail with ssh := Analyzer.SSHProbe.line "SSH-2.0-OpenSSH_8.9" }

/-- Counterexample to claim C4: on the handshake line of the scenario the
detector emits serviceName SSH but an empty version, not "8.9": the line
contains no space, so there is no token after a first space to extract. -/
theorem c4_counterexample :
    (Analyzer.detectService sshResult22 envSSHBanner).service = "SSH"
    ∧ (Analyzer.detectService sshResult22 envSSHBanner).version ≠ "8.9"
    ∧ (Analyzer.detectService sshResult22 envSSHBanner).version = "" := by
  decide

/-- Claim C4 as amended: on the line "SSH-2.0-OpenSSH_8.9" the record gets
serviceName SSH, the trimmed line as banner, and an EMPTY version, because a
version is extracted only when the OpenSSH line splits on spaces into more
than one token, in which case the version is the token after the first space
(so "SSH-2.0-OpenSSH_8.9p1 Ubuntu-3ubuntu0.1" yields "Ubuntu-3ubuntu0.1"). -/
theorem c4_amended :
    ((Analyzer.detectService sshResult22 envSSHBanner).service = "SSH"
      ∧ (Analyzer.detectService sshResult22 envSSHBanner).version = ""
      ∧ (Analyzer.detectService sshResult22 envSSHBanner).banner = "SSH-2.0-OpenSSH_8.9")
    ∧ (Analyzer.detectSSH
        { scanID := "scan-1", target := "host", port := 22, service := "SSH",
          version := "", banner := "" }
        (Analyzer.SSHProbe.line "SSH-2.0-OpenSSH_8.9p1 Ubuntu-3ubuntu0.1")).version
      = "Ubuntu-3ubuntu0.1" := by
  decide

/-! ### Shared data model (`pkg/models`)

The structs the reporter agent unmarshals from its two topics.  The
`confidence` float64 field of `ServiceInfo` is elided: it is floating
point and is never read by the reporter logic. -/

namespace Models

/-- `models.ScanResult` (fields ID, ScanID, Target, Port, Protocol, State,
Error). -/
structure ScanResult where
  id : String
  scanID : String
  target : String
  port : Nat
  protocol : String
  state : String
  error : String
deriving DecidableEq, Repr

/-- `models.ServiceInfo` (fields ID, ScanID, Target, Port, ServiceName,
Version, Banner; Confidence elided). -/
structure ServiceInfo where
  id : String
  scanID : String
  target : String
  port : Nat
  serviceName : String
  version : String
  banner : String
deriving DecidableEq, Repr

/-- `models.ScanStatistics` (fields TotalPorts, OpenPorts, ClosedPorts). -/
structure ScanStatistics where
  totalPorts : Nat
  openPorts : Nat
  closedPorts : Nat
deriving DecidableEq, Repr

end Models

/-! ### Aggregation and Report Synthesis Engine (reporter agent)

Embeds the reporter agent: the per-scan aggregate `ScanAggregator`, report
generation `generateReport`, and the three message handlers
`handleScanResult`, the `AfterFunc` timer callback, and
`handleServiceDetected`, folded over event traces.

In the Go code each handler invocation takes the registry mutex around the
lookup-or-create, the trigger check and the removal, so a handler
invocation is modelled as one atomic step; the wall-clock fields
(`startTime`, the report `Timestamp` and `DurationMs`) and the raw
`time.Timer` handle are elided — the timer is instead modelled by a
`timerFire` event that may arrive at any point (in particular after a
`timer.Stop` that lost the race with an already started callback), whose
handler performs the registry check of the callback body.  The state also
carries two event logs that exist only as specification instrumentation:
`reports`, the reports handed to the persistence collaborator, and
`creations`, the scanIds for which an aggregate was created. -/

namespace Reporter

/-- `maxResultsWait = 20`: the result-count finalization threshold. -/
def maxResultsWait : Nat := 20

/-- `resultTimeout = 30 * time.Second`, in seconds: the aggregation timer
duration (wall clock; not otherwise modelled). -/
def resultTimeoutSeconds : Nat := 30

/-- `ScanAggregator` (fields scanID, target, results, services,
resultCount; startTime, timer and mutex elided). -/
structure ScanAggregator where
  scanID : String
  target : String
  results : List Models.ScanResult
  services : List Models.ServiceInfo
  resultCount : Nat
deriving DecidableEq, Repr

/-- `OpenPortInfo` (fields Port, Service, Version). -/
structure OpenPortInfo where
  port : Nat
  service : String
  version : String
deriving DecidableEq, Repr

/-- `Report` (fields ScanID, Target, OpenPorts, Statistics; Timestamp and
DurationMs elided as wall clock). -/
structure Report where
  scanID : String
  target : String
  openPorts : List OpenPortInfo
  statistics : Models.ScanStatistics
deriving DecidableEq, Repr

/-- The `serviceMap` built by `generateReport`: iterating the accumulated
services in order, so a later record for the same port overwrites an
earlier one. -/
def serviceMapOf (services : List Models.ServiceInfo) :
    List (Nat × Models.ServiceInfo) :=
  services.foldl (fun m s => mapInsert s.port s m) []

/-- The `OpenPortInfo` built for one open result: the port, plus service
name and version when the service map has an entry for that port. -/
def openPortEntry (sm : List (Nat × Models.ServiceInfo))
    (r : Models.ScanResult) : OpenPortInfo :=
  match mapLookup r.port sm with
  | some svc => { port := r.port, service := svc.serviceName, version := svc.version }
  | none => { port := r.port, service := "", version := "" }

/-- The statistics loop of `generateReport`: walks the accumulated results
once, appending one open-ports entry and bumping the open counter for each
result in state "open", bumping the closed counter for each result in
state "closed", and ignoring every other state. -/
def reportLoop (sm : List (Nat × Models.ServiceInfo)) :
    List Models.ScanResult → List OpenPortInfo → Nat → Nat →
    List OpenPortInfo × Nat × Nat
  | [], ops, oc, cc => (ops, oc, cc)
  | r :: rest, ops, oc, cc =>
      if r.state = "open" then
        reportLoop sm rest (ops ++ [openPortEntry sm r]) (oc + 1) cc
      else if r.state = "closed" then reportLoop sm rest ops oc (cc + 1)
      else reportLoop sm rest ops oc cc

/-- `ReporterAgent.generateReport`: builds the service map, counts open and
closed results while building the open-ports list, and assembles the
report with stats.total the number of accumulated results. -/
def generateReport (agg : ScanAggregator) : Report :=
  let sm := serviceMapOf agg.services
  let out := reportLoop sm agg.results [] 0 0
  { scanID := agg.scanID, target := agg.target, openPorts := out.1,
    statistics :=
      { totalPorts := agg.results.length, openPorts := out.2.1,
        closedPorts := out.2.2 } }

/-- The reporter agent state: the aggregate registry `scanAggregators`
plus the two instrumentation logs. -/
structure ReporterState where
  scanAggregators : List (String × ScanAggregator)
  reports : List Report
  creations : List String
deriving DecidableEq, Repr

/-- The reporter agent starts with an empty registry. -/
def initState : ReporterState := { scanAggregators := [], reports := [], creations := [] }

/-- The shared tail of `handleScanResult`: append the result to the
aggregate and bump its count; when the count reaches `maxResultsWait`,
re-check the registry under the lock, and only if the entry is still live
stop its timer, remove it and generate the report; otherwise write the
updated aggregate back. -/
def resultStep (st : ReporterState) (r : Models.ScanResult)
    (agg : ScanAggregator) : ReporterState :=
  let agg1 := { agg with results := agg.results ++ [r],
                         resultCount := agg.resultCount + 1 }
  if maxResultsWait ≤ agg1.resultCount then
    match mapLookup r.scanID st.scanAggregators with
    | some _ =>
        { st with
            scanAggregators := mapErase r.scanID st.scanAggregators,
            reports := st.reports ++ [generateReport agg1] }
    | none => st
  else
    { st with scanAggregators := mapInsert r.scanID agg1 st.scanAggregators }

/-- `ReporterAgent.handleScanResult`: look up the aggregate for the scanId,
creating and registering a fresh one (with its timer armed) when absent,
then run the accumulation and threshold check. -/
def handleScanResult (st : ReporterState) (r : Models.ScanResult) : ReporterState :=
  match mapLookup r.scanID st.scanAggregators with
  | some agg => resultStep st r agg
  | none =>
      let agg : ScanAggregator :=
        { scanID := r.scanID, target := r.target, results := [],
          services := [], resultCount := 0 }
      resultStep
        { st with
            scanAggregators := mapInsert r.scanID agg st.scanAggregators,
            creations := st.creations ++ [r.scanID] }
        r agg

/-- The `time.AfterFunc` callback body: under the registry lock, check for
a live entry for the scanId; when present remove it and generate its
report, otherwise do nothing. -/
def handleTimer (st : ReporterState) (scanID : String) : ReporterState :=
  match mapLookup scanID st.scanAggregators with
  | some agg =>
      { st with
          scanAggregators := mapErase scanID st.scanAggregators,
          reports := st.reports ++ [generateReport agg] }
  | none => st

/-- `ReporterAgent.handleServiceDetected`: append the service record to the
live aggregate for its scanId; when no aggregate is live the record is
dropped. -/
def handleServiceDetected (st : ReporterState) (s : Models.ServiceInfo) :
    ReporterState :=
  match mapLookup s.scanID st.scanAggregators with
  | some agg =>
      { st with
          scanAggregators :=
            mapInsert s.scanID { agg with services := agg.services ++ [s] }
              st.scanAggregators }
  | none => st

/-- One inbound event of the reporter agent: a `scan.result` message, an
aggregation-timer expiry for a scanId, or a `service.detected` message. -/
inductive ReporterEvent : Type
  | scanResult (r : Models.ScanResult) : ReporterEvent
  | timerFire (scanID : String) : ReporterEvent
  | serviceDetected (s : Models.ServiceInfo) : ReporterEvent
deriving DecidableEq, Repr

/-- Dispatch one event to its handler. -/
def step (st : ReporterState) : ReporterEvent → ReporterState
  | .scanResult r => handleScanResult st r
  | .timerFire scanID => handleTimer st scanID
  | .serviceDetected s => handleServiceDetected st s

/-- Process a trace of events. -/
def run (st : ReporterState) (events : List ReporterEvent) : ReporterState :=
  events.foldl step st

/-- Whether the registry holds a live aggregate for this scanId. -/
def live (st : ReporterState) (scanID : String) : Bool :=
  (mapLookup scanID st.scanAggregators).isSome

/-- Number of reports emitted so far for this scanId. -/
def reportsFor (st : ReporterState) (scanID : String) : Nat :=
  st.reports.countP (fun rp => rp.scanID = scanID)

/-- Number of aggregates created so far for this scanId. -/
def creationsFor (st : ReporterState) (scanID : String) : Nat :=
  st.creations.countP (fun k => k = scanID)

/-- Every registry entry stores an aggregate whose scanID is its key. -/
def WellKeyed (st : ReporterState) : Prop :=
  ∀ k agg, mapLookup k st.scanAggregators = some agg → agg.scanID = k

/-- The finalization ledger: for every scanId, reports emitted plus the
live aggregate (if any) exactly account for the aggregates created. -/
def CountInv (st : ReporterState) : Prop :=
  ∀ scanID, reportsFor st scanID + (if live st scanID then 1 else 0)
    = creationsFor st scanID

theorem reportLoop_length (sm : List (Nat × Models.ServiceInfo)) :
    ∀ (rs : List Models.ScanResult) (ops : List OpenPortInfo) (oc cc : Nat),
      (reportLoop sm rs ops oc cc).1.length
        = ops.length + rs.countP (fun r => r.state = "open") := by
  intro rs
  induction rs with
  | nil => intro ops oc cc; simp [reportLoop]
  | cons r rest ih =>
    intro ops oc cc
    simp only [reportLoop]
    split
    · rename_i h
      rw [ih]
      simp [List.countP_cons, h]
      omega
    · split
      · rename_i h1 h2
        rw [ih]
        simp [List.countP_cons, h1]
      · rename_i h1 h2
        rw [ih]
        simp [List.countP_cons, h1]

theorem reportLoop_open (sm : List (Nat × Models.ServiceInfo)) :
    ∀ (rs : List Models.ScanResult) (ops : List OpenPortInfo) (oc cc : Nat),
      (reportLoop sm rs ops oc cc).2.1
        = oc + rs.countP (fun r => r.state = "open") := by
  intro rs
  induction rs with
  | nil => intro ops oc cc; simp [reportLoop]
  | cons r rest ih =>
    intro ops oc cc
    simp only [reportLoop]
    split
    · rename_i h
      rw [ih]
      simp [List.countP_cons, h]
      omega
    · split
      · rename_i h1 h2
        rw [ih]
        simp [List.countP_cons, h1]
      · rename_i h1 h2
        rw [ih]
        simp [List.countP_cons, h1]

theorem reportLoop_closed (sm : List (Nat × Models.ServiceInfo)) :
    ∀ (rs : List Models.ScanResult) (ops : List OpenPortInfo) (oc cc : Nat),
      (reportLoop sm rs ops oc cc).2.2
        = cc + rs.countP (fun r => r.state = "closed") := by
  intro rs
  induction rs with
  | nil => intro ops oc cc; simp [reportLoop]
  | cons r rest ih =>
    intro ops oc cc
    simp only [reportLoop]
    split
    · rename_i h
      rw [ih]
      have hc : (r.state = "closed") = False := by
        simp only [h]
        simp
      simp [List.countP_cons, hc]
    · split
      · rename_i h1 h2
        rw [ih]
        simp [List.countP_cons, h2]
        omega
      · rename_i h1 h2
        rw [ih]
        simp [List.countP_cons, h2]

theorem generateReport_scanID (agg : ScanAggregator) :
    (generateReport agg).scanID = agg.scanID := rfl

theorem countP_snoc {α : Type} (l : List α) (a : α) (p : α → Bool) :
    (l ++ [a]).countP p = l.countP p + (if p a then 1 else 0) := by
  simp [List.countP_append, List.countP_cons]

/-- The result the aggregate carries after the shared accumulation step. -/
def bump (agg : ScanAggregator) (r : Models.ScanResult) : ScanAggregator :=
  { agg with results := agg.results ++ [r], resultCount := agg.resultCount + 1 }

theorem resultStep_threshold_some (st : ReporterState) (r : Models.ScanResult)
    (agg agg2 : ScanAggregator) (hth : maxResultsWait ≤ agg.resultCount + 1)
    (hl : mapLookup r.scanID st.scanAggregators = some agg2) :
    resultStep st r agg =
      { st with
          scanAggregators := mapErase r.scanID st.scanAggregators,
          reports := st.reports ++ [generateReport (bump agg r)] } := by
  simp only [resultStep, bump]
  rw [if_pos hth, hl]

theorem resultStep_threshold_none (st : ReporterState) (r : Models.ScanResult)
    (agg : ScanAggregator) (hth : maxResultsWait ≤ agg.resultCount + 1)
    (hl : mapLookup r.scanID st.scanAggregators = none) :
    resultStep st r agg = st := by
  simp only [resultStep]
  rw [if_pos hth, hl]

theorem resultStep_accumulate (st : ReporterState) (r : Models.ScanResult)
    (agg : ScanAggregator) (hth : ¬ maxResultsWait ≤ agg.resultCount + 1) :
    resultStep st r agg =
      { st with scanAggregators := mapInsert r.scanID (bump agg r) st.scanAggregators } := by
  simp only [resultStep, bump]
  rw [if_neg hth]

theorem handleScanResult_found (st : ReporterState) (r : Models.ScanResult)
    (agg : ScanAggregator) (hl : mapLookup r.scanID st.scanAggregators = some agg) :
    handleScanResult st r = resultStep st r agg := by
  simp only [handleScanResult]
  rw [hl]

theorem handleScanResult_create (st : ReporterState) (r : Models.ScanResult)
    (hl : mapLookup r.scanID st.scanAggregators = none) :
    handleScanResult st r = resultStep
      { st with
          scanAggregators := mapInsert r.scanID
            { scanID := r.scanID, target := r.target, results := [],
              services := [], resultCount := 0 } st.scanAggregators,
          creations := st.creations ++ [r.scanID] }
      r
      { scanID := r.scanID, target := r.target, results := [],
        services := [], resultCount := 0 } := by
  simp only [handleScanResult]
  rw [hl]

theorem handleTimer_found (st : ReporterState) (scanID : String)
    (agg : ScanAggregator) (hl : mapLookup scanID st.scanAggregators = some agg) :
    handleTimer st scanID =
      { st with
          scanAggregators := mapErase scanID st.scanAggregators,
          reports := st.reports ++ [generateReport agg] } := by
  simp only [handleTimer]
  rw [hl]

theorem handleTimer_missing (st : ReporterState) (scanID : String)
    (hl : mapLookup scanID st.scanAggregators = none) :
    handleTimer st scanID = st := by
  simp only [handleTimer]
  rw [hl]

theorem handleServiceDetected_found (st : ReporterState) (s : Models.ServiceInfo)
    (agg : ScanAggregator) (hl : mapLookup s.scanID st.scanAggregators = some agg) :
    handleServiceDetected st s =
      { st with
          scanAggregators := mapInsert s.scanID
            { agg with services := agg.services ++ [s] } st.scanAggregators } := by
  simp only [handleServiceDetected]
  rw [hl]

theorem handleServiceDetected_missing (st : ReporterState) (s : Models.ServiceInfo)
    (hl : mapLookup s.scanID st.scanAggregators = none) :
    handleServiceDetected st s = st := by
  simp only [handleServiceDetected]
  rw [hl]

theorem wellKeyed_resultStep (st : ReporterState) (r : Models.ScanResult)
    (agg : ScanAggregator) (hW : WellKeyed st) (hid : agg.scanID = r.scanID) :
    WellKeyed (resultStep st r agg) := by
  by_cases hth : maxResultsWait ≤ agg.resultCount + 1
  · rcases hl : mapLookup r.scanID st.scanAggregators with _ | agg2
    · rw [resultStep_threshold_none st r agg hth hl]; exact hW
    · rw [resultStep_threshold_some st r agg agg2 hth hl]
      intro k a hk
      by_cases hkr : k = r.scanID
      · subst hkr
        rw [show ({ st with
            scanAggregators := mapErase r.scanID st.scanAggregators,
            reports := st.reports ++ [generateReport (bump agg r)] } :
              ReporterState).scanAggregators
          = mapErase r.scanID st.scanAggregators from rfl,
          mapLookup_erase_self] at hk
        cases hk
      · rw [show ({ st with
            scanAggregators := mapErase r.scanID st.scanAggregators,
            reports := st.reports ++ [generateReport (bump agg r)] } :
              ReporterState).scanAggregators
          = mapErase r.scanID st.scanAggregators from rfl,
          mapLookup_erase_of_ne hkr] at hk
        exact hW k a hk
  · rw [resultStep_accumulate st r agg hth]
    intro k a hk
    by_cases hkr : k = r.scanID
    · subst hkr
      rw [show ({ st with
          scanAggregators := mapInsert r.scanID (bump agg r) st.scanAggregators } :
            ReporterState).scanAggregators
        = mapInsert r.scanID (bump agg r) st.scanAggregators from rfl,
        mapLookup_insert_self] at hk
      injection hk with hk2
      subst hk2
      exact hid
    · rw [show ({ st with
          scanAggregators := mapInsert r.scanID (bump agg r) st.scanAggregators } :
            ReporterState).scanAggregators
        = mapInsert r.scanID (bump agg r) st.scanAggregators from rfl,
        mapLookup_insert_of_ne hkr] at hk
      exact hW k a hk

theorem wellKeyed_step (st : ReporterState) (e : ReporterEvent)
    (hW : WellKeyed st) : WellKeyed (step st e) := by
  cases e with
  | scanResult r =>
    show WellKeyed (handleScanResult st r)
    rcases hl : mapLookup r.scanID st.scanAggregators with _ | agg
    · rw [handleScanResult_create st r hl]
      apply wellKeyed_resultStep _ _ _ _ rfl
      intro k a hk
      by_cases hkr : k = r.scanID
      · subst hkr
        rw [show ({ st with
            scanAggregators := mapInsert r.scanID
              { scanID := r.scanID, target := r.target, results := [],
                services := [], resultCount := 0 } st.scanAggregators,
            creations := st.creations ++ [r.scanID] } :
              ReporterState).scanAggregators
          = mapInsert r.scanID
              { scanID := r.scanID, target := r.target, results := [],
                services := [], resultCount := 0 } st.scanAggregators from rfl,
          mapLookup_insert_self] at hk
        injection hk with hk2
        subst hk2
        rfl
      · rw [show ({ st with
            scanAggregators := mapInsert r.scanID
              { scanID := r.scanID, target := r.target, results := [],
                services := [], resultCount := 0 } st.scanAggregators,
            creations := st.creations ++ [r.scanID] } :
              ReporterState).scanAggregators
          = mapInsert r.scanID
              { scanID := r.scanID, target := r.target, results := [],
                services := [], resultCount := 0 } st.scanAggregators from rfl,
          mapLookup_insert_of_ne hkr] at hk
        exact hW k a hk
    · rw [handleScanResult_found st r agg hl]
      exact wellKeyed_resultStep st r agg hW (hW _ _ hl)
  | timerFire scanID =>
    show WellKeyed (handleTimer st scanID)
    rcases hl : mapLookup scanID st.scanAggregators with _ | agg
    · rw [handleTimer_missing st scanID hl]; exact hW
    · rw [handleTimer_found st scanID agg hl]
      intro k a hk
      by_cases hkr : k = scanID
      · rw [show ({ st with
            scanAggregators := mapErase scanID st.scanAggregators,
            reports := st.reports ++ [generateReport agg] } :
              ReporterState).scanAggregators
          = mapErase scanID st.scanAggregators from rfl,
          hkr, mapLookup_erase_self] at hk
        cases hk
      · rw [show ({ st with
            scanAggregators := mapErase scanID st.scanAggregators,
            reports := st.reports ++ [generateReport agg] } :
              ReporterState).scanAggregators
          = mapErase scanID st.scanAggregators from rfl,
          mapLookup_erase_of_ne hkr] at hk
        exact hW k a hk
  | serviceDetected s =>
    show WellKeyed (handleServiceDetected st s)
    rcases hl : mapLookup s.scanID st.scanAggregators with _ | agg
    · rw [handleServiceDetected_missing st s hl]; exact hW
    · rw [handleServiceDetected_found st s agg hl]
      intro k a hk
      by_cases hkr : k = s.scanID
      · subst hkr
        rw [show ({ st with
            scanAggregators := mapInsert s.scanID
              { agg with services := agg.services ++ [s] } st.scanAggregators } :
              ReporterState).scanAggregators
          = mapInsert s.scanID
              { agg with services := agg.services ++ [s] } st.scanAggregators from rfl,
          mapLookup_insert_self] at hk
        injection hk with hk2
        subst hk2
        show agg.scanID = s.scanID
        exact hW s.scanID agg hl
      · rw [show ({ st with
            scanAggregators := mapInsert s.scanID
              { agg with services := agg.services ++ [s] } st.scanAggregators } :
              ReporterState).scanAggregators
          = mapInsert s.scanID
              { agg with services := agg.services ++ [s] } st.scanAggregators from rfl,
          mapLookup_insert_of_ne hkr] at hk
        exact hW k a hk

theorem countInv_resultStep (st : ReporterState) (r : Models.ScanResult)
    (agg : ScanAggregator) (hC : CountInv st) (hid : agg.scanID = r.scanID)
    (hlive : live st r.scanID = true) :
    CountInv (resultStep st r agg) := by
  intro id
  have hCid := hC id
  by_cases hth : maxResultsWait ≤ agg.resultCount + 1
  · rcases hl : mapLookup r.scanID st.scanAggregators with _ | agg2
    · rw [resultStep_threshold_none st r agg hth hl]
      exact hCid
    · rw [resultStep_threshold_some st r agg agg2 hth hl]
      have hrep : (generateReport (bump agg r)).scanID = r.scanID := hid
      by_cases hidr : id = r.scanID
      · simp only [reportsFor, live, creationsFor] at hCid ⊢
        rw [countP_snoc]
        rw [hidr]
        simp only [mapLookup_erase_self]
        rw [hidr] at hCid
        simp only [hl] at hCid
        simp [hrep] at hCid ⊢
        omega
      · simp only [reportsFor, live, creationsFor] at hCid ⊢
        rw [countP_snoc]
        simp only [mapLookup_erase_of_ne hidr]
        simp [hrep, Ne.symm hidr]
        exact hCid
  · rw [resultStep_accumulate st r agg hth]
    by_cases hidr : id = r.scanID
    · simp only [reportsFor, live, creationsFor] at hCid ⊢
      rw [hidr]
      simp only [mapLookup_insert_self]
      rw [hidr] at hCid
      simp only [live] at hlive
      simp only [hlive] at hCid
      simp at hCid ⊢
      omega
    · simp only [reportsFor, live, creationsFor] at hCid ⊢
      simp only [mapLookup_insert_of_ne hidr]
      exact hCid

theorem countInv_step (st : ReporterState) (e : ReporterEvent)
    (hW : WellKeyed st) (hC : CountInv st) : CountInv (step st e) := by
  cases e with
  | scanResult r =>
    show CountInv (handleScanResult st r)
    rcases hl : mapLookup r.scanID st.scanAggregators with _ | agg
    · rw [handleScanResult_create st r hl]
      apply countInv_resultStep
      · intro id
        have hCid := hC id
        simp only [reportsFor, live, creationsFor] at hCid ⊢
        rw [countP_snoc]
        by_cases hidr : id = r.scanID
        · rw [hidr]
          simp only [mapLookup_insert_self]
          rw [hidr] at hCid
          simp only [hl] at hCid
          simp at hCid ⊢
          omega
        · simp only [mapLookup_insert_of_ne hidr]
          simp [Ne.symm hidr]
          exact hCid
      · rfl
      · simp only [live]
        rw [mapLookup_insert_self]
        rfl
    · rw [handleScanResult_found st r agg hl]
      refine countInv_resultStep st r agg hC (hW _ _ hl) ?_
      simp only [live]
      rw [hl]
      rfl
  | timerFire scanID =>
    show CountInv (handleTimer st scanID)
    rcases hl : mapLookup scanID st.scanAggregators with _ | agg
    · rw [handleTimer_missing st scanID hl]; exact hC
    · rw [handleTimer_found st scanID agg hl]
      intro id
      have hCid := hC id
      have hrep : (generateReport agg).scanID = scanID := hW _ _ hl
      simp only [reportsFor, live, creationsFor] at hCid ⊢
      rw [countP_snoc]
      by_cases hidr : id = scanID
      · rw [hidr]
        simp only [mapLookup_erase_self]
        rw [hidr] at hCid
        simp only [hl] at hCid
        simp [hrep] at hCid ⊢
        omega
      · simp only [mapLookup_erase_of_ne hidr]
        simp [hrep, Ne.symm hidr]
        exact hCid
  | serviceDetected s =>
    show CountInv (handleServiceDetected st s)
    rcases hl : mapLookup s.scanID st.scanAggregators with _ | agg
    · rw [handleServiceDetected_missing st s hl]; exact hC
    · rw [handleServiceDetected_found st s agg hl]
      intro id
      have hCid := hC id
      simp only [reportsFor, live, creationsFor] at hCid ⊢
      by_cases hidr : id = s.scanID
      · rw [hidr]
        simp only [mapLookup_insert_self]
        rw [hidr] at hCid
        simp only [hl] at hCid
        simp at hCid ⊢
        omega
      · simp only [mapLookup_insert_of_ne hidr]
        exact hCid

theorem run_inv (events : List ReporterEvent) :
    ∀ st : ReporterState, WellKeyed st → CountInv st →
      WellKeyed (run st events) ∧ CountInv (run st events) := by
  induction events with
  | nil => intro st hW hC; exact ⟨hW, hC⟩
  | cons e rest ih =>
    intro st hW hC
    exact ih (step st e) (wellKeyed_step st e hW) (countInv_step st e hW hC)

theorem initState_wellKeyed : WellKeyed initState := by
  intro k a hk
  cases hk

theorem initState_countInv : CountInv initState := by
  intro id
  rfl

end Reporter

/-! ### Claims about report synthesis -/

/-- Claim C6: in every generated report, stats.open equals the length of
the openPorts list, and both equal the number of accumulated results whose
state is open (so every open result maps to exactly one openPorts entry). -/
theorem c6_open_stats_consistent (agg : Reporter.ScanAggregator) :
    (Reporter.generateReport agg).statistics.openPorts
      = (Reporter.generateReport agg).openPorts.length
    ∧ (Reporter.generateReport agg).openPorts.length
      = agg.results.countP (fun r => r.state = "open") := by
  constructor
  · show (Reporter.reportLoop (Reporter.serviceMapOf agg.services) agg.results [] 0 0).2.1
      = (Reporter.reportLoop (Reporter.serviceMapOf agg.services) agg.results [] 0 0).1.length
    rw [Reporter.reportLoop_open, Reporter.reportLoop_length]
    simp
  · show (Reporter.reportLoop (Reporter.serviceMapOf agg.services) agg.results [] 0 0).1.length
      = agg.results.countP (fun r => r.state = "open")
    rw [Reporter.reportLoop_length]
    simp

/-- Counterexample to claim C7: delivering the same result (same scanId
and port) twice and then finalizing by timer yields a report with
stats.total = 2 and stats.open = 2, while a single delivery yields
stats.total = 1 — the duplicate is double-counted. -/
theorem c7_counterexample :
    ((Reporter.run Reporter.initState
        [Reporter.ReporterEvent.scanResult
          (Models.ScanResult.mk "m1" "scan-dup" "host" 80 "tcp" "open" ""),
         Reporter.ReporterEvent.scanResult
          (Models.ScanResult.mk "m1" "scan-dup" "host" 80 "tcp" "open" ""),
         Reporter.ReporterEvent.timerFire "scan-dup"]).reports.map
        (fun rp => (rp.statistics.totalPorts, rp.statistics.openPorts)) = [(2, 2)])
    ∧ ((Reporter.run Reporter.initState
        [Reporter.ReporterEvent.scanResult
          (Models.ScanResult.mk "m1" "scan-dup" "host" 80 "tcp" "open" ""),
         Reporter.ReporterEvent.timerFire "scan-dup"]).reports.map
        (fun rp => (rp.statistics.totalPorts, rp.statistics.openPorts)) = [(1, 1)]) := by
  decide

/-- Claim C7 as amended: the reporter performs no deduplication, so each
delivered result, duplicates included, extends the accumulated results and
the statistics count delivered messages: appending one more copy of a
result raises stats.total by one and raises stats.open or stats.closed by
one according to its state. -/
theorem c7_amended_duplicates_counted (agg : Reporter.ScanAggregator)
    (r : Models.ScanResult) :
    (Reporter.generateReport
        { agg with results := agg.results ++ [r] }).statistics.totalPorts
      = (Reporter.generateReport agg).statistics.totalPorts + 1
    ∧ (Reporter.generateReport
        { agg with results := agg.results ++ [r] }).statistics.openPorts
      = (Reporter.generateReport agg).statistics.openPorts
        + (if r.state = "open" then 1 else 0)
    ∧ (Reporter.generateReport
        { agg with results := agg.results ++ [r] }).statistics.closedPorts
      = (Reporter.generateReport agg).statistics.closedPorts
        + (if r.state = "closed" then 1 else 0) := by
  refine ⟨?_, ?_, ?_⟩
  · show (agg.results ++ [r]).length = agg.results.length + 1
    simp
  · show (Reporter.reportLoop (Reporter.serviceMapOf agg.services)
        (agg.results ++ [r]) [] 0 0).2.1
      = (Reporter.reportLoop (Reporter.serviceMapOf agg.services)
        agg.results [] 0 0).2.1 + (if r.state = "open" then 1 else 0)
    rw [Reporter.reportLoop_open, Reporter.reportLoop_open]
    simp [List.countP_append, List.countP_cons]
  · show (Reporter.reportLoop (Reporter.serviceMapOf agg.services)
        (agg.results ++ [r]) [] 0 0).2.2
      = (Reporter.reportLoop (Reporter.serviceMapOf agg.services)
        agg.results [] 0 0).2.2 + (if r.state = "closed" then 1 else 0)
    rw [Reporter.reportLoop_closed, Reporter.reportLoop_closed]
    simp [List.countP_append, List.countP_cons]

/-! ### Claims about finalization -/

/-- The result repeatedly delivered for scanId "s" in the C1 trace. -/
def c1Result : Models.ScanResult :=
  { id := "m", scanID := "s", target := "host", port := 80, protocol := "tcp",
    state := "open", error := "" }

/-- The C1 trace: twenty results finalize the scan by threshold, one more
result arrives afterwards, and the fresh 30-second timer then fires. -/
def c1Trace : List Reporter.ReporterEvent :=
  List.replicate 20 (Reporter.ReporterEvent.scanResult c1Result)
    ++ [Reporter.ReporterEvent.scanResult c1Result,
        Reporter.ReporterEvent.timerFire "s"]

/-- Counterexample to claim C1: when further messages for a scanId keep
arriving after finalization, a second Report is produced for the same
scanId — the 21st result recreates an aggregate whose timer fires again. -/
theorem c1_counterexample :
    Reporter.reportsFor (Reporter.run Reporter.initState c1Trace) "s" = 2
    ∧ ¬ Reporter.reportsFor (Reporter.run Reporter.initState c1Trace) "s" ≤ 1 := by
  decide

/-- Claim C1 as amended: finalize-and-report occurs exactly once per
aggregate creation — the trigger check and the registry removal happen in
the same atomic step, so for every scanId the reports emitted plus the
still-live aggregate exactly account for the aggregates created; but a
PortResult arriving after finalization creates a fresh aggregate for the
same scanId, so a scanId whose messages keep arriving can produce one
Report per such re-creation rather than at most one ever. -/
theorem c1_amended_once_per_creation (events : List Reporter.ReporterEvent)
    (scanID : String) :
    Reporter.reportsFor (Reporter.run Reporter.initState events) scanID
      + (if Reporter.live (Reporter.run Reporter.initState events) scanID then 1 else 0)
      = Reporter.creationsFor (Reporter.run Reporter.initState events) scanID :=
  (Reporter.run_inv events Reporter.initState Reporter.initState_wellKeyed
    Reporter.initState_countInv).2 scanID

/-- Claim C3: the transition to finalizing fires on whichever trigger comes
first.  First conjunct: a result that brings a live aggregate to the
threshold immediately emits its report and removes the aggregate in the
same step.  Second conjunct: a timer firing for a scanId with no live
aggregate (in particular one already finalized by the threshold) does
nothing, so the timer cannot also finalize.  Third conjunct: a timer firing
for a still-live aggregate (fewer than the threshold results arrived)
finalizes it: it emits the report and removes the aggregate. -/
theorem c3_first_trigger_finalizes :
    (∀ (st : Reporter.ReporterState) (r : Models.ScanResult)
        (agg : Reporter.ScanAggregator),
      mapLookup r.scanID st.scanAggregators = some agg →
      Reporter.maxResultsWait ≤ agg.resultCount + 1 →
      (Reporter.step st (Reporter.ReporterEvent.scanResult r)).reports
          = st.reports ++ [Reporter.generateReport (Reporter.bump agg r)]
        ∧ mapLookup r.scanID
            (Reporter.step st (Reporter.ReporterEvent.scanResult r)).scanAggregators
          = none)
    ∧ (∀ (st : Reporter.ReporterState) (scanID : String),
      mapLookup scanID st.scanAggregators = none →
      Reporter.step st (Reporter.ReporterEvent.timerFire scanID) = st)
    ∧ (∀ (st : Reporter.ReporterState) (scanID : String)
        (agg : Reporter.ScanAggregator),
      mapLookup scanID st.scanAggregators = some agg →
      (Reporter.step st (Reporter.ReporterEvent.timerFire scanID)).reports
          = st.reports ++ [Reporter.generateReport agg]
        ∧ mapLookup scanID
            (Reporter.step st (Reporter.ReporterEvent.timerFire scanID)).scanAggregators
          = none) := by
  refine ⟨?_, ?_, ?_⟩
  · intro st r agg hl hth
    have h1 := Reporter.handleScanResult_found st r agg hl
    have h2 := Reporter.resultStep_threshold_some st r agg agg hth hl
    constructor
    · show (Reporter.handleScanResult st r).reports
        = st.reports ++ [Reporter.generateReport (Reporter.bump agg r)]
      rw [h1, h2]
    · show mapLookup r.scanID
          (Reporter.handleScanResult st r).scanAggregators = none
      rw [h1, h2]
      exact mapLookup_erase_self _ _
  · intro st scanID hl
    exact Reporter.handleTimer_missing st scanID hl
  · intro st scanID agg hl
    have h1 := Reporter.handleTimer_found st scanID agg hl
    constructor
    · show (Reporter.handleTimer st scanID).reports
        = st.reports ++ [Reporter.generateReport agg]
      rw [h1]
    · show mapLookup scanID (Reporter.handleTimer st scanID).scanAggregators = none
      rw [h1]
      exact mapLookup_erase_self _ _

/-- The live aggregate of the C3 witness, one result short of the
threshold. -/
def c3Agg : Reporter.ScanAggregator :=
  { scanID := "s", target := "host",
    results := List.replicate 19
      { id := "m", scanID := "s", target := "host", port := 80,
        protocol := "tcp", state := "closed", error := "" },
    services := [], resultCount := 19 }

/-- The reporter state of the C3 witness. -/
def c3State : Reporter.ReporterState :=
  { scanAggregators := [("s", c3Agg)], reports := [], creations := ["s"] }

/-- The twentieth result of the C3 witness. -/
def c3Result : Models.ScanResult :=
  { id := "m20", scanID := "s", target := "host", port := 443,
    protocol := "tcp", state := "open", error := "" }

/-- Witness for C3: in a state holding 19 results for scanId "s", the
twentieth result finalizes immediately — the report is emitted and the
aggregate removed in that step — and the timer that later fires for "s"
observes the absent entry and does nothing. -/
theorem c3_first_trigger_finalizes_witness :
    mapLookup c3Result.scanID c3State.scanAggregators = some c3Agg
    ∧ Reporter.maxResultsWait ≤ c3Agg.resultCount + 1
    ∧ (Reporter.step c3State (Reporter.ReporterEvent.scanResult c3Result)).reports
        = c3State.reports ++ [Reporter.generateReport (Reporter.bump c3Agg c3Result)]
    ∧ mapLookup "s" (Reporter.step c3State
        (Reporter.ReporterEvent.scanResult c3Result)).scanAggregators = none
    ∧ Reporter.step (Reporter.step c3State
          (Reporter.ReporterEvent.scanResult c3Result))
        (Reporter.ReporterEvent.timerFire "s")
      = Reporter.step c3State (Reporter.ReporterEvent.scanResult c3Result) := by
  refine ⟨rfl, by decide, ?_, ?_, ?_⟩
  · exact (c3_first_trigger_finalizes.1 c3State c3Result c3Agg rfl (by decide)).1
  · exact (c3_first_trigger_finalizes.1 c3State c3Result c3Agg rfl (by decide)).2
  · exact c3_first_trigger_finalizes.2.1
      (Reporter.step c3State (Reporter.ReporterEvent.scanResult c3Result)) "s"
      (c3_first_trigger_finalizes.1 c3State c3Result c3Agg rfl (by decide)).2

/-- Claim C10: a service record whose scanId has no live aggregate (none
created yet, or already finalized and removed) is discarded — processing it
leaves the whole reporter state exactly as if the event had never been
delivered, so it creates no aggregate, modifies nothing, and appears in no
report of any continuation of the trace. -/
theorem c10_orphan_service_discarded (pre post : List Reporter.ReporterEvent)
    (s : Models.ServiceInfo)
    (h : Reporter.live (Reporter.run Reporter.initState pre) s.scanID = false) :
    Reporter.run Reporter.initState
        (pre ++ Reporter.ReporterEvent.serviceDetected s :: post)
      = Reporter.run Reporter.initState (pre ++ post) := by
  have hnone : mapLookup s.scanID
      (Reporter.run Reporter.initState pre).scanAggregators = none := by
    rcases hm : mapLookup s.scanID
        (Reporter.run Reporter.initState pre).scanAggregators with _ | a
    · rfl
    · exfalso
      simp only [Reporter.live, hm] at h
      simp at h
  show List.foldl Reporter.step Reporter.initState
      (pre ++ Reporter.ReporterEvent.serviceDetected s :: post)
    = List.foldl Reporter.step Reporter.initState (pre ++ post)
  rw [List.foldl_append, List.foldl_cons, List.foldl_append]
  congr 1
  show Reporter.handleServiceDetected (Reporter.run Reporter.initState pre) s
    = Reporter.run Reporter.initState pre
  exact Reporter.handleServiceDetected_missing _ s hnone

/-- The orphan service record of the C10 witness. -/
def c10Service : Models.ServiceInfo :=
  { id := "i", scanID := "sx", target := "host", port := 22,
    serviceName := "SSH", version := "", banner := "" }

/-- Witness for C10: with no aggregate ever created for scanId "sx", the
service record for it leaves the initial state unchanged. -/
theorem c10_orphan_service_discarded_witness :
    Reporter.live (Reporter.run Reporter.initState []) "sx" = false
    ∧ Reporter.run Reporter.initState
        ([] ++ Reporter.ReporterEvent.serviceDetected c10Service :: [])
      = Reporter.run Reporter.initState ([] ++ []) :=
  ⟨rfl, c10_orphan_service_discarded [] [] c10Service rfl⟩

end Pentool
